import Mathlib

/-
Verification of the input-aggregation and binary-framing protocol of the
Amplified-Mouse-Pi-Pico repository.

The development shallowly embeds the three host-side Python scripts:
  scripts/host_send_mice.py   (slot state, aggregator loop, telemetry frame codec)
  scripts/test_random_mice.py (synthetic source and its frame codec)
  scripts/send_settings.py    (configuration record resolution and control frame codec)

Machine integers are modelled as Int (Python ints are unbounded); byte stores go
through explicit mod-256 arithmetic.  A Python bytearray element assignment is
range-checked (assigning a value outside range(0, 256) raises ValueError), so a
function performing such an assignment is embedded with an Option result, where
none models the raised exception.  Rationals stand in for the Python floats that
appear in the configuration path.
-/

/-! ## Telemetry frame codec and slot state (host_send_mice.py) -/

/-- Sync byte of the telemetry frame, `SYNC = 0xAA` in host_send_mice.py. -/
def SYNC : Nat := 0xAA

/-- Telemetry frame length, `PACKET_LEN = 15` in host_send_mice.py. -/
def PACKET_LEN : Nat := 15

/-- Slot count, `NUM_MICE_MAX = 6` in host_send_mice.py. -/
def NUM_MICE_MAX : Nat := 6

/-- One per-slot accumulator record, `state[i] = [dx, dy, buttons, wheel]`
    in host_send_mice.py line 59. -/
structure Slot where
  dx : Int
  dy : Int
  buttons : Int
  wheel : Int
deriving DecidableEq, Repr

/-- The six-entry state array `state = [[0, 0, 0, 0] for _ in range(NUM_MICE_MAX)]`. -/
abbrev MouseState := Fin 6 → Slot

/-- Python `x & 0xFF` on an arbitrary int: the value reduced modulo 256. -/
def byteAnd255 (x : Int) : Nat := (x % 256).toNat

/-- Python bytearray element assignment `buf[i] = v`: range-checked, raising
    ValueError (modelled as `none`) when `v` is outside `range(0, 256)`. -/
def bytearraySet (buf : List Nat) (i : Nat) (v : Int) : Option (List Nat) :=
  if 0 ≤ v ∧ v < 256 then some (buf.set i v.toNat) else none

/-- The saturation used by host_send_mice.py, both for the wheel value inside
    `make_packet` (lines 73-76) and for `dx`/`dy` in the main loop (lines 115-119):
    `if w > 127: w = 127` / `elif w < -128: w = -128`. -/
def clampHost (w : Int) : Int := if w > 127 then 127 else if w < -128 then -128 else w

/-- One iteration of the wheel loop of `make_packet` (line 77):
    `buf[14] = (buf[14] + w) & 0xFF` with `w` the clamped wheel accumulator. -/
def wheelStep (acc : Int) (w : Int) : Int := (acc + clampHost w) % 256

/-- Value held in `buf[14]` after the wheel loop of `make_packet`,
    slots 0..5 in order. -/
def wheelFoldHost (st : MouseState) : Int :=
  wheelStep (wheelStep (wheelStep (wheelStep (wheelStep (wheelStep 0
    (st 0).wheel) (st 1).wheel) (st 2).wheel) (st 3).wheel) (st 4).wheel) (st 5).wheel

/-- Value held in `buf[13]` after the button loop of `make_packet` (lines 69-70):
    `buf[13] |= state[i][2] & 0x07` over all six slots, starting from `buf[13] = 0`. -/
def buttonsByteHost (st : MouseState) : Int :=
  Int.lor (Int.lor (Int.lor (Int.lor (Int.lor (Int.lor 0
    (Int.land (st 0).buttons 7)) (Int.land (st 1).buttons 7)) (Int.land (st 2).buttons 7))
    (Int.land (st 3).buttons 7)) (Int.land (st 4).buttons 7)) (Int.land (st 5).buttons 7)

/-- Contents of the 15-byte buffer of `make_packet` (host_send_mice.py lines 62-77)
    right before the final sign fixup: sync byte, six `(dx, dy)` pairs stored with
    `& 0xFF`, the OR of the button masks, and the wheel running sum.  The button
    and wheel entries are in `range(0, 256)`, so the loop assignments succeed. -/
def packetBytesHost (st : MouseState) : List Nat :=
  [SYNC,
   byteAnd255 (st 0).dx, byteAnd255 (st 0).dy,
   byteAnd255 (st 1).dx, byteAnd255 (st 1).dy,
   byteAnd255 (st 2).dx, byteAnd255 (st 2).dy,
   byteAnd255 (st 3).dx, byteAnd255 (st 3).dy,
   byteAnd255 (st 4).dx, byteAnd255 (st 4).dy,
   byteAnd255 (st 5).dx, byteAnd255 (st 5).dy,
   (buttonsByteHost st).toNat,
   (wheelFoldHost st).toNat]

/-- The function `make_packet` of host_send_mice.py (lines 61-81).  After the loops
    fill the buffer, lines 78-79 run `if buf[14] >= 128: buf[14] -= 256`, that is,
    they assign `buf[14] - 256` (a negative number) back into the bytearray; the
    assignment is range-checked, hence the `bytearraySet` in that branch. -/
def make_packet (st : MouseState) : Option (List Nat) :=
  if 128 ≤ wheelFoldHost st then
    bytearraySet (packetBytesHost st) 14 (wheelFoldHost st - 256)
  else
    some (packetBytesHost st)

/-! ## Aggregator loop events (host_send_mice.py main loop) -/

/-- Raw evdev events dispatched by the main loop of host_send_mice.py
    (lines 100-113): REL_X / REL_Y / REL_WHEEL deltas for a slot, and button
    transitions for BTN_LEFT (bit 0), BTN_RIGHT (bit 1), BTN_MIDDLE (bit 2),
    where `pressed` is the truthiness of `event.value`. -/
inductive Ev where
  | relX (slot : Fin 6) (v : Int)
  | relY (slot : Fin 6) (v : Int)
  | relWheel (slot : Fin 6) (v : Int)
  | btn (slot : Fin 6) (bit : Fin 3) (pressed : Bool)
deriving DecidableEq, Repr

/-- Effect of one event on the state array: `state[i][0] += value`,
    `state[i][1] += value`, `state[i][3] += value`, or
    `state[i][2] |= 1 << bit` / `state[i][2] &= ~(1 << bit)`. -/
def applyEvent (st : MouseState) (e : Ev) : MouseState :=
  match e with
  | .relX i v => fun j => if j = i then { st j with dx := (st j).dx + v } else st j
  | .relY i v => fun j => if j = i then { st j with dy := (st j).dy + v } else st j
  | .relWheel i v => fun j => if j = i then { st j with wheel := (st j).wheel + v } else st j
  | .btn i b p => fun j =>
      if j = i then
        { st j with buttons :=
            if p then Int.lor (st j).buttons ((1 : Int) <<< (b.val : Int))
            else Int.land (st j).buttons (Int.lnot ((1 : Int) <<< (b.val : Int))) }
      else st j

/-- All events drained during one loop iteration, applied in arrival order. -/
def applyEvents (st : MouseState) (es : List Ev) : MouseState :=
  es.foldl applyEvent st

/-- Contribution of one event to the REL_X total of slot `i`. -/
def relXDelta (i : Fin 6) : Ev → Int
  | .relX j v => if i = j then v else 0
  | _ => 0

/-- Contribution of one event to the REL_Y total of slot `i`. -/
def relYDelta (i : Fin 6) : Ev → Int
  | .relY j v => if i = j then v else 0
  | _ => 0

/-- Total REL_X delta received by slot `i` during one tick. -/
def sumRelX (i : Fin 6) (es : List Ev) : Int := (es.map (relXDelta i)).sum

/-- Total REL_Y delta received by slot `i` during one tick. -/
def sumRelY (i : Fin 6) (es : List Ev) : Int := (es.map (relYDelta i)).sum

/-- Clamp step of the main loop (host_send_mice.py lines 114-119): saturate
    `dx` and `dy` of every slot to `[-128, 127]`; wheel and buttons untouched. -/
def clampMotion (st : MouseState) : MouseState :=
  fun i => { st i with dx := clampHost (st i).dx, dy := clampHost (st i).dy }

/-- Post-emission reset (host_send_mice.py lines 122-124):
    `state[i][0] = state[i][1] = 0` and `state[i][3] = 0` for every slot;
    the button mask `state[i][2]` is not touched. -/
def resetAccums (st : MouseState) : MouseState :=
  fun i => { st i with dx := 0, dy := 0, wheel := 0 }

/-- One iteration of the emission loop: drain the pending events, clamp the
    motion accumulators, encode the frame, and reset the accumulators. -/
def tickStep (st : MouseState) (es : List Ev) : Option (List Nat) × MouseState :=
  let st2 := clampMotion (applyEvents st es)
  (make_packet st2, resetAccums st2)

/-- State at the start of a tick: accumulators are zero (the previous tick reset
    them), button masks persist from earlier events. -/
def initState (btns : Fin 6 → Int) : MouseState := fun i => ⟨0, 0, btns i, 0⟩

/-! ## Frame decoder built from the layout of section 4.2 of the spec -/

/-- Signed reinterpretation of one wire byte (two-complement int8). -/
def s8ofByte (b : Nat) : Int := if 128 ≤ b then (b : Int) - 256 else (b : Int)

/-- Decoded dx of slot `i`: signed byte at offset `1 + 2 * i`. -/
def decode_dx (buf : List Nat) (i : Fin 6) : Int := s8ofByte (buf.getD (1 + 2 * i.val) 0)

/-- Decoded dy of slot `i`: signed byte at offset `2 + 2 * i`. -/
def decode_dy (buf : List Nat) (i : Fin 6) : Int := s8ofByte (buf.getD (2 + 2 * i.val) 0)

/-- Decoded button field: the byte at offset 13. -/
def decode_buttons (buf : List Nat) : Nat := buf.getD 13 0

/-- Decoded wheel field: signed byte at offset 14. -/
def decode_wheel (buf : List Nat) : Int := s8ofByte (buf.getD 14 0)

/-! ## Synthetic source (test_random_mice.py) -/

/-- The function `clamp_s8` of test_random_mice.py: `max(-128, min(127, int(x)))`. -/
def clamp_s8 (x : Int) : Int := max (-128) (min 127 x)

/-- The function `make_packet(deltas)` of test_random_mice.py (lines 35-45):
    sync byte, six clamped `(dx, dy)` pairs stored with `& 0xFF`,
    then `buf[13] = 0` (buttons) and `buf[14] = 0` (wheel). -/
def make_packet_random (deltas : Fin 6 → Int × Int) : List Nat :=
  [SYNC,
   byteAnd255 (clamp_s8 (deltas 0).1), byteAnd255 (clamp_s8 (deltas 0).2),
   byteAnd255 (clamp_s8 (deltas 1).1), byteAnd255 (clamp_s8 (deltas 1).2),
   byteAnd255 (clamp_s8 (deltas 2).1), byteAnd255 (clamp_s8 (deltas 2).2),
   byteAnd255 (clamp_s8 (deltas 3).1), byteAnd255 (clamp_s8 (deltas 3).2),
   byteAnd255 (clamp_s8 (deltas 4).1), byteAnd255 (clamp_s8 (deltas 4).2),
   byteAnd255 (clamp_s8 (deltas 5).1), byteAnd255 (clamp_s8 (deltas 5).2),
   0, 0]

/-- Delta generation in single-slot mode (test_random_mice.py lines 206-210):
    the deltas start as `[[0, 0]] * 6` and only slot `i` receives the drawn pair. -/
def gen_single (i : Fin 6) (p : Int × Int) : Fin 6 → Int × Int :=
  fun j => if j = i then p else (0, 0)

/-- Delta generation in all-slots mode (lines 211-214): every slot receives its
    own drawn pair. -/
def gen_all (r : Fin 6 → Int × Int) : Fin 6 → Int × Int := r

/-- Magnitude clamp of test_random_mice.py line 191: `mag = max(1, min(127, args.magnitude))`. -/
def clampMagnitude (m : Int) : Int := max 1 (min 127 m)

/-! ## Timing of the two emission loops -/

/-- Timeout passed to `select.select` on every iteration of the aggregator loop
    (host_send_mice.py line 94): the constant `0.02` seconds, independent of how
    much of the current period has already elapsed. -/
def hostSelectTimeout : ℚ := 2 / 100

/-- Pacing deadline of the synthetic source (test_random_mice.py line 222):
    `next_until = start + (packets + 1) * interval`, where `packets` counts the
    frames already sent. -/
def synthNextUntil (start : ℚ) (packets : Nat) (interval : ℚ) : ℚ :=
  start + (packets + 1) * interval

/-- Sleep amount computed at line 223: `sleep_time = next_until - time.monotonic()`. -/
def synthSleepTime (start : ℚ) (packets : Nat) (interval : ℚ) (now : ℚ) : ℚ :=
  synthNextUntil start packets interval - now

/-- Wall-clock time after lines 224-225 (`if sleep_time > 0: time.sleep(sleep_time)`). -/
def synthWake (start : ℚ) (packets : Nat) (interval : ℚ) (now : ℚ) : ℚ :=
  if 0 < synthSleepTime start packets interval now then
    now + synthSleepTime start packets interval now
  else now

/-- Modelled from the spec: the remaining time until the deadline
    `start + (n + 1) * T` that section 4.1 prescribes for the wait before the
    n-th frame; used to compare the two loops against the specified policy. -/
def specDeadlineRemaining (start : ℚ) (n : Nat) (T : ℚ) (now : ℚ) : ℚ :=
  start + (n + 1) * T - now

/-- Send times of the synthetic source loop: frame 0 goes out after an initial
    processing delay, and each later frame after waking from the deadline sleep,
    with `delay k` the nonnegative processing time of iteration `k`. -/
def synthSendTime (start interval : ℚ) (delay : Nat → ℚ) : Nat → ℚ
  | 0 => start + delay 0
  | k + 1 => synthWake start (k + 1) interval (synthSendTime start interval delay k + delay (k + 1))

/-! ## Configuration codec (send_settings.py) -/

/-- Table `LOGIC_MODES` of send_settings.py. -/
def LOGIC_MODES : List (String × Int) :=
  [("sum", 0), ("average", 1), ("max", 2), ("min", 3), ("and", 4),
   ("or", 5), ("xor", 6), ("nand", 7), ("nor", 8), ("xnor", 9)]

/-- Table `INPUT_MODES` of send_settings.py. -/
def INPUT_MODES : List (String × Int) := [("uart", 0), ("quadrature", 1), ("both", 2)]

/-- Table `OUTPUT_MODES` of send_settings.py. -/
def OUTPUT_MODES : List (String × Int) := [("combined", 0), ("separate", 1)]

/-- Python dict lookup `TABLE.get(name)` on one of the mode tables. -/
def lookupMode (t : List (String × Int)) (k : String) : Option Int :=
  (t.find? (fun p => p.1 == k)).map (fun p => p.2)

/-- Python `str.lower()`: map every character to lower case. -/
def pyLower (s : String) : String := String.mk (s.data.map Char.toLower)

/-- Python `round` restricted to rationals: round half to even. -/
def pyRound (q : ℚ) : Int :=
  let n : Int := ⌊q⌋
  let r : ℚ := q - n
  if r < 1 / 2 then n else if 1 / 2 < r then n + 1 else if n % 2 = 0 then n else n + 1

/-- Control frame sync byte 1, `UART_CONFIG_SYNC1 = 0x55`. -/
def UART_CONFIG_SYNC1 : Nat := 0x55

/-- Control frame sync byte 2, `UART_CONFIG_SYNC2 = 0xCF`. -/
def UART_CONFIG_SYNC2 : Nat := 0xCF

/-- Control frame command byte, `UART_CONFIG_CMD = 0x01`. -/
def UART_CONFIG_CMD : Nat := 0x01

/-- The function `build_packet` of send_settings.py (lines 56-66):
    `amplify_x100 = max(10, min(1000, int(round(amplify * 100))))`,
    `q_lo = quad_scale & 0xFF`, `q_hi = (quad_scale >> 8) & 0xFF`, then the
    11-byte frame with every variable field stored through `& 0xFF`. -/
def build_packet (num_mice logic_mode input_mode output_mode : Int)
    (amplify : ℚ) (quad_scale : Int) (save : Bool) : List Nat :=
  let amplify_x100 : Int := max 10 (min 1000 (pyRound (amplify * 100)))
  let q_lo : Nat := byteAnd255 quad_scale
  let q_hi : Nat := byteAnd255 (quad_scale >>> (8 : Int))
  [UART_CONFIG_SYNC1, UART_CONFIG_SYNC2, UART_CONFIG_CMD,
   byteAnd255 num_mice, byteAnd255 logic_mode, byteAnd255 input_mode,
   byteAnd255 output_mode, byteAnd255 amplify_x100, q_lo, q_hi,
   if save then 1 else 0]

/-- Command-line values reaching main of send_settings.py.  For the three mode
    options argparse was given `choices=list(TABLE)`, so a name outside the
    table aborts argument parsing; the embedding performs that membership test
    where main would look the name up. -/
structure CliArgs where
  num_mice : Option Int
  logic_mode : Option String
  input_mode : Option String
  output_mode : Option String
  amplify : Option ℚ
  quad_scale : Option Int
  no_save : Bool
deriving Repr

/-- Key-value pairs obtained from config/config.yaml by `load_yaml`, restricted
    to the keys main reads; a missing key makes `cfg.get(key, default)` return
    the default. -/
structure CfgFile where
  num_mice : Option Int
  logic_mode : Option String
  input_mode : Option String
  output_mode : Option String
  amplify : Option ℚ
  quad_scale : Option Int
deriving Repr

/-- Resolution, validation and encoding path of main in send_settings.py
    (lines 88-109).  `Except.error` models a fatal exit before any byte is
    written (an argparse rejection or the `SystemExit` at line 103);
    `Except.ok` carries the bytes handed to the single `ser.write` call. -/
def send_settings_main (cli : CliArgs) (cfg : CfgFile) : Except String (List Nat) := do
  let num_mice : Int := cli.num_mice.getD (cfg.num_mice.getD 6)
  let logic_mode : Int ← match cli.logic_mode with
    | some s =>
      match lookupMode LOGIC_MODES s with
      | some v => Except.ok v
      | none => Except.error "argparse: invalid choice for logic mode"
    | none => Except.ok ((lookupMode LOGIC_MODES (pyLower (cfg.logic_mode.getD "sum"))).getD 0)
  let input_mode : Int ← match cli.input_mode with
    | some s =>
      match lookupMode INPUT_MODES s with
      | some v => Except.ok v
      | none => Except.error "argparse: invalid choice for input mode"
    | none => Except.ok ((lookupMode INPUT_MODES (pyLower (cfg.input_mode.getD "uart"))).getD 0)
  let output_mode : Int ← match cli.output_mode with
    | some s =>
      match lookupMode OUTPUT_MODES s with
      | some v => Except.ok v
      | none => Except.error "argparse: invalid choice for output mode"
    | none => Except.ok ((lookupMode OUTPUT_MODES (pyLower (cfg.output_mode.getD "combined"))).getD 0)
  let amplify : ℚ := cli.amplify.getD (cfg.amplify.getD 1)
  let quad_scale : Int := cli.quad_scale.getD (cfg.quad_scale.getD 2)
  if num_mice < 2 ∨ 6 < num_mice then
    Except.error "num_mice must be 2-6"
  else
    let quad_scale := if quad_scale < 1 then 1 else quad_scale
    Except.ok (build_packet num_mice logic_mode input_mode output_mode amplify quad_scale (! cli.no_save))

/-! ## Concrete instances used by the theorems below -/

/-- Snapshot with a single scroll-down detent on slot 0 and everything else zero. -/
def stNegWheel : MouseState := fun i => if i = 0 then ⟨0, 0, 0, -1⟩ else ⟨0, 0, 0, 0⟩

/-- Snapshot whose wheel accumulators sum to -2 (slot 3 holds -2, the rest zero). -/
def stWheelSumNeg : MouseState := fun i => if i = 3 then ⟨0, 0, 0, -2⟩ else ⟨0, 0, 0, 0⟩

/-- Snapshot with the left button held on slot 0 only. -/
def cexA : MouseState := fun i => if i = 0 then ⟨0, 0, 1, 0⟩ else ⟨0, 0, 0, 0⟩

/-- Snapshot with the left button held on slot 1 only. -/
def cexB : MouseState := fun i => if i = 1 then ⟨0, 0, 1, 0⟩ else ⟨0, 0, 0, 0⟩

/-- Snapshot with motion on slot 0 only, all fields within the valid wire ranges. -/
def stC7 : MouseState := fun i => if i = 0 then ⟨5, -3, 0, 0⟩ else ⟨0, 0, 0, 0⟩

/-- All button masks cleared at the start of a tick. -/
def btnsZero : Fin 6 → Int := fun _ => 0

/-- A sample tick event trace: slot 0 receives REL_X 5 then REL_X -2 with an
    interleaved REL_Y 3 for slot 1. -/
def evC5 : List Ev := [Ev.relX 0 5, Ev.relY 1 3, Ev.relX 0 (-2)]

/-- The frame bytes produced by the tick that drains `evC5`. -/
def bufC5 : List Nat := packetBytesHost (clampMotion (applyEvents (initState btnsZero) evC5))

/-- Command line giving every setting explicitly with valid values. -/
def cliValid : CliArgs := ⟨some 6, some "sum", some "uart", some "combined", some 1, some 2, false⟩

/-- Empty configuration file: every key missing. -/
def cfgEmpty : CfgFile := ⟨none, none, none, none, none, none⟩

/-- Command line with no overrides at all. -/
def cliDefaults : CliArgs := ⟨none, none, none, none, none, none, false⟩

/-- Configuration file carrying the unparsable logic mode name "foo". -/
def cfgBadLogic : CfgFile := ⟨none, some "foo", none, none, none, none⟩

/-- Zero per-iteration processing delay for the synthetic source pacing model. -/
def synthZeroDelay : Nat → ℚ := fun _ => 0

/-! ## Helper lemmas -/

theorem wheelStep_nonneg (acc w : Int) : 0 ≤ wheelStep acc w :=
  Int.emod_nonneg _ (by norm_num)

theorem wheelStep_lt (acc w : Int) : wheelStep acc w < 256 :=
  Int.emod_lt_of_pos _ (by norm_num)

theorem wheelFoldHost_nonneg (st : MouseState) : 0 ≤ wheelFoldHost st :=
  wheelStep_nonneg _ _

theorem wheelFoldHost_lt (st : MouseState) : wheelFoldHost st < 256 :=
  wheelStep_lt _ _

/-- Inversion for the telemetry encoder: it returns a frame exactly when the
    wheel running sum stayed below 128, and then the frame is the filled buffer. -/
theorem make_packet_eq_some_iff (st : MouseState) (buf : List Nat) :
    make_packet st = some buf ↔ wheelFoldHost st < 128 ∧ buf = packetBytesHost st := by
  have hlt := wheelFoldHost_lt st
  unfold make_packet
  split
  case isTrue h =>
    have hno : ¬ (0 ≤ wheelFoldHost st - 256 ∧ wheelFoldHost st - 256 < 256) := by omega
    simp [bytearraySet, hno]
    omega
  case isFalse h =>
    simp
    constructor
    · intro hb
      exact ⟨by omega, hb.symm⟩
    · rintro ⟨-, hb⟩
      exact hb.symm

/-- Reading back a byte stored with `& 0xFF` as a signed int8 recovers the
    value when it lies in `[-128, 127]`. -/
theorem s8ofByte_byteAnd255 (x : Int) (h1 : -128 ≤ x) (h2 : x ≤ 127) :
    s8ofByte (byteAnd255 x) = x := by
  unfold s8ofByte byteAnd255
  have h3 : 0 ≤ x % 256 := Int.emod_nonneg _ (by norm_num)
  have h4 : x % 256 < 256 := Int.emod_lt_of_pos _ (by norm_num)
  split <;> omega

theorem packetBytesHost_getD_dx (st : MouseState) (i : Fin 6) :
    (packetBytesHost st).getD (1 + 2 * i.val) 0 = byteAnd255 (st i).dx := by
  fin_cases i <;> rfl

theorem packetBytesHost_getD_dy (st : MouseState) (i : Fin 6) :
    (packetBytesHost st).getD (2 + 2 * i.val) 0 = byteAnd255 (st i).dy := by
  fin_cases i <;> rfl

theorem applyEvent_dx (st : MouseState) (e : Ev) (i : Fin 6) :
    (applyEvent st e i).dx = (st i).dx + relXDelta i e := by
  cases e <;> simp only [applyEvent, relXDelta] <;> split <;> simp_all

theorem applyEvent_dy (st : MouseState) (e : Ev) (i : Fin 6) :
    (applyEvent st e i).dy = (st i).dy + relYDelta i e := by
  cases e <;> simp only [applyEvent, relYDelta] <;> split <;> simp_all

/-- Accumulation is a plain sum: the dx accumulator after draining a trace is
    the starting value plus the total REL_X delta of the slot, however the
    trace is split or interleaved. -/
theorem applyEvents_dx (es : List Ev) (st : MouseState) (i : Fin 6) :
    (applyEvents st es i).dx = (st i).dx + sumRelX i es := by
  induction es generalizing st with
  | nil => simp [applyEvents, sumRelX]
  | cons e es ih =>
    simp only [applyEvents, List.foldl_cons] at ih ⊢
    rw [ih, applyEvent_dx]
    simp [sumRelX]
    ring

theorem applyEvents_dy (es : List Ev) (st : MouseState) (i : Fin 6) :
    (applyEvents st es i).dy = (st i).dy + sumRelY i es := by
  induction es generalizing st with
  | nil => simp [applyEvents, sumRelY]
  | cons e es ih =>
    simp only [applyEvents, List.foldl_cons] at ih ⊢
    rw [ih, applyEvent_dy]
    simp [sumRelY]
    ring

/-! ## Claim theorems -/

/-- C1: the claim says the telemetry encoder is total and never raises for any
    clamped snapshot, in particular for snapshots whose wheel accumulators sum
    to a negative value.  The code contradicts it: on the snapshot holding a
    single wheel delta of -1 the running sum `buf[14]` is 255, so the fixup
    `buf[14] -= 256` assigns -1 into the bytearray and raises ValueError; the
    embedding evaluates `make_packet` at that snapshot to `none` and no 15-byte
    frame is produced. -/
theorem make_packet_raises_on_negative_wheel_sum :
    make_packet stNegWheel = none ∧
    (stNegWheel 0).wheel = -1 ∧ wheelFoldHost stNegWheel = 255 := by
  refine ⟨by decide, by decide, by decide⟩

/-- C2: the claim says the byte at offset 14 equals the signed 8-bit wraparound
    sum of the six clamped wheel accumulators, with results at or above 128
    reinterpreted as negative.  On the snapshot whose clamped wheel sum is -2
    the running unsigned sum is 254, the reinterpretation branch is taken, and
    the bytearray assignment of 254 - 256 = -2 raises ValueError: the encoder
    returns no frame at all instead of emitting the wraparound byte. -/
theorem wheel_byte_crash_instead_of_wrap :
    wheelFoldHost stWheelSumNeg = 254 ∧ make_packet stWheelSumNeg = none := by
  refine ⟨by decide, by decide⟩

/-- C3: encoding the configuration record with num_devices 6, logic_mode xor,
    input_mode both, output_mode separate, amplify 2.5, quad_scale 4 and
    persist true produces exactly the 11 bytes
    55 CF 01 06 06 02 01 FA 04 00 01, with quad_scale little-endian at
    offsets 8 and 9. -/
theorem build_packet_example_bytes :
    lookupMode LOGIC_MODES "xor" = some 6 ∧
    lookupMode INPUT_MODES "both" = some 2 ∧
    lookupMode OUTPUT_MODES "separate" = some 1 ∧
    build_packet 6 6 2 1 (5 / 2) 4 true =
      [0x55, 0xCF, 0x01, 0x06, 0x06, 0x02, 0x01, 0xFA, 0x04, 0x00, 0x01] := by
  refine ⟨by decide, by decide, by decide, ?_⟩
  have h : ((4 : Int) >>> (8 : Int)) = 0 := by decide
  norm_num [build_packet, pyRound, byteAnd255, h,
    UART_CONFIG_SYNC1, UART_CONFIG_SYNC2, UART_CONFIG_CMD]
  omega

/-- C4 counterexample: the claim says the wire byte at offset 7 equals the
    clamped amplify_x100.  At amplify 12.0 the clamped value is 1000, but the
    encoder stores `amplify_x100 & 0xFF`, so the byte is 232, not 1000. -/
theorem amplify_byte_trunc_cex :
    max 10 (min 1000 (pyRound ((12 : ℚ) * 100))) = 1000 ∧
    (build_packet 6 0 0 0 12 4 true).getD 7 0 = 232 ∧
    (build_packet 6 0 0 0 12 4 true).getD 7 0 ≠
      (max 10 (min 1000 (pyRound ((12 : ℚ) * 100)))).toNat := by
  have h : ((4 : Int) >>> (8 : Int)) = 0 := by decide
  refine ⟨by norm_num [pyRound], ?_, ?_⟩
  · norm_num [build_packet, pyRound, byteAnd255, h]
    omega
  · norm_num [build_packet, pyRound, byteAnd255, h]
    omega

/-- C4 amended: the config encoder computes
    amplify_x100 = clamp(round(amplify * 100), 10, 1000) with no other clamping,
    and the wire byte at offset 7 is amplify_x100 reduced modulo 256 (the 8-bit
    truncation of the field); amplify 12.0 therefore encodes byte 232 and
    amplify 0.01 encodes byte 10. -/
theorem amplify_byte_is_clamped_mod256 :
    (∀ (n l i o : Int) (a : ℚ) (q : Int) (s : Bool),
        (build_packet n l i o a q s).getD 7 0 =
          byteAnd255 (max 10 (min 1000 (pyRound (a * 100))))) ∧
    (build_packet 6 0 0 0 12 4 true).getD 7 0 = 232 ∧
    (build_packet 6 0 0 0 (1 / 100) 4 true).getD 7 0 = 10 := by
  have h : ((4 : Int) >>> (8 : Int)) = 0 := by decide
  refine ⟨fun n l i o a q s => rfl, ?_, ?_⟩
  · norm_num [build_packet, pyRound, byteAnd255, h]
    omega
  · norm_num [build_packet, pyRound, byteAnd255, h]
    omega

/-- C5: for every event trace drained within one tick, every slot and every
    split or interleaving of the deltas, the dx and dy bytes of the emitted
    frame equal the clamped total delta of that slot, stored as a
    two-complement int8. -/
theorem tick_motion_bytes (btns : Fin 6 → Int) (es : List Ev) (i : Fin 6) (buf : List Nat)
    (h : (tickStep (initState btns) es).1 = some buf) :
    buf.getD (1 + 2 * i.val) 0 = byteAnd255 (clampHost (sumRelX i es)) ∧
    buf.getD (2 + 2 * i.val) 0 = byteAnd255 (clampHost (sumRelY i es)) := by
  have h' : make_packet (clampMotion (applyEvents (initState btns) es)) = some buf := h
  obtain ⟨hlt, hbuf⟩ := (make_packet_eq_some_iff _ _).1 h'
  subst hbuf
  rw [packetBytesHost_getD_dx, packetBytesHost_getD_dy]
  constructor
  · show byteAnd255 (clampHost ((applyEvents (initState btns) es i).dx)) = _
    rw [applyEvents_dx]
    simp [initState]
  · show byteAnd255 (clampHost ((applyEvents (initState btns) es i).dy)) = _
    rw [applyEvents_dy]
    simp [initState]

/-- C5 witness: the sample trace evC5 gives slot 0 the dx byte for 5 - 2 = 3
    and the dy byte for 0. -/
theorem tick_motion_bytes_witness :
    List.getD bufC5 (1 + 2 * (0 : Fin 6).val) 0 = byteAnd255 (clampHost (sumRelX 0 evC5)) ∧
    List.getD bufC5 (2 + 2 * (0 : Fin 6).val) 0 = byteAnd255 (clampHost (sumRelY 0 evC5)) :=
  tick_motion_bytes btnsZero evC5 0 bufC5 (by decide)

/-- C6: after a tick whose frame was written, every slot has dx, dy and wheel
    reset to zero while its button mask is exactly what the drained events left
    there; no other slot field exists to be modified. -/
theorem tick_resets_accums_keeps_buttons (st : MouseState) (es : List Ev) (buf : List Nat)
    (hw : (tickStep st es).1 = some buf) (i : Fin 6) :
    ((tickStep st es).2 i).dx = 0 ∧ ((tickStep st es).2 i).dy = 0 ∧
    ((tickStep st es).2 i).wheel = 0 ∧
    ((tickStep st es).2 i).buttons = (applyEvents st es i).buttons := by
  clear hw
  simp [tickStep, resetAccums, clampMotion]

/-- C6 witness: the empty tick on the all-zero state. -/
theorem tick_resets_witness :
    ((tickStep (initState btnsZero) []).2 0).dx = 0 ∧
    ((tickStep (initState btnsZero) []).2 0).dy = 0 ∧
    ((tickStep (initState btnsZero) []).2 0).wheel = 0 ∧
    ((tickStep (initState btnsZero) []).2 0).buttons =
      (applyEvents (initState btnsZero) [] 0).buttons :=
  tick_resets_accums_keeps_buttons (initState btnsZero) []
    (packetBytesHost (initState btnsZero)) (by decide) 0

/-- C7 counterexample: the claim says a decoder built from the wire layout
    recovers every snapshot exactly, including per-slot button masks.  Two
    valid snapshots that differ only in which slot holds the pressed button
    encode to the same frame, so no decoder can recover both. -/
theorem encode_not_injective_on_slots :
    make_packet cexA = make_packet cexB ∧
    (cexA 0).buttons ≠ (cexB 0).buttons ∧
    ¬ ∃ dec : Option (List Nat) → MouseState,
        dec (make_packet cexA) = cexA ∧ dec (make_packet cexB) = cexB := by
  refine ⟨by decide, by decide, ?_⟩
  rintro ⟨dec, h1, h2⟩
  have hAB : make_packet cexA = make_packet cexB := by decide
  have hst : cexA = cexB := by rw [← h1, hAB, h2]
  have hbtn : (cexA 0).buttons = (cexB 0).buttons := by rw [hst]
  exact absurd hbtn (by decide)

/-- C7 amended: whenever the encoder emits a frame for a snapshot whose motion
    fields are in [-128, 127], the layout decoder recovers every slot dx and dy
    exactly, and recovers the combined button OR and the combined wheel sum;
    per-slot button masks and wheel values are lossily combined and not
    individually recoverable. -/
theorem decode_recovers_motion (st : MouseState) (buf : List Nat)
    (hrange : ∀ i : Fin 6, -128 ≤ (st i).dx ∧ (st i).dx ≤ 127 ∧
      -128 ≤ (st i).dy ∧ (st i).dy ≤ 127)
    (henc : make_packet st = some buf) :
    (∀ i : Fin 6, decode_dx buf i = (st i).dx ∧ decode_dy buf i = (st i).dy) ∧
    decode_buttons buf = (buttonsByteHost st).toNat ∧
    decode_wheel buf = wheelFoldHost st ∧
    buf.getD 0 0 = SYNC ∧ buf.length = PACKET_LEN := by
  obtain ⟨hlt, hbuf⟩ := (make_packet_eq_some_iff st buf).1 henc
  subst hbuf
  have h0 := wheelFoldHost_nonneg st
  refine ⟨?_, rfl, ?_, rfl, rfl⟩
  · intro i
    obtain ⟨h1, h2, h3, h4⟩ := hrange i
    constructor
    · unfold decode_dx
      rw [packetBytesHost_getD_dx]
      exact s8ofByte_byteAnd255 _ h1 h2
    · unfold decode_dy
      rw [packetBytesHost_getD_dy]
      exact s8ofByte_byteAnd255 _ h3 h4
  · unfold decode_wheel
    have h14 : (packetBytesHost st).getD 14 0 = (wheelFoldHost st).toNat := rfl
    rw [h14]
    unfold s8ofByte
    split <;> omega

/-- C7 witness: the motion-only snapshot stC7 decodes back exactly. -/
theorem decode_recovers_motion_witness :
    (∀ i : Fin 6, decode_dx (packetBytesHost stC7) i = (stC7 i).dx ∧
        decode_dy (packetBytesHost stC7) i = (stC7 i).dy) ∧
    decode_buttons (packetBytesHost stC7) = (buttonsByteHost stC7).toNat ∧
    decode_wheel (packetBytesHost stC7) = wheelFoldHost stC7 ∧
    (packetBytesHost stC7).getD 0 0 = SYNC ∧
    (packetBytesHost stC7).length = PACKET_LEN :=
  decode_recovers_motion stC7 (packetBytesHost stC7) (by decide) (by decide)

/-- C8 counterexample: the claim says any enum name outside the tables is fatal
    before any bytes are sent.  With the unparsable logic mode "foo" in the
    configuration file and no command-line overrides, the name silently
    resolves to wire code 0 and a full control frame is written. -/
theorem settings_sent_despite_unknown_enum :
    lookupMode LOGIC_MODES "foo" = none ∧
    send_settings_main cliDefaults cfgBadLogic =
      Except.ok (build_packet 6 0 0 0 1 2 true) :=
  ⟨by decide, rfl⟩

/-- C8 amended: bytes are written only if the resolved num_devices lies in
    [2, 6] and every command-line enum name parses; out-of-range num_devices
    and unparsable command-line enum names are fatal before any bytes are
    sent, while unparsable enum names from the configuration file silently
    fall back to wire code 0. -/
theorem settings_ok_implies_valid (cli : CliArgs) (cfg : CfgFile) (bs : List Nat)
    (h : send_settings_main cli cfg = Except.ok bs) :
    (2 ≤ cli.num_mice.getD (cfg.num_mice.getD 6) ∧
      cli.num_mice.getD (cfg.num_mice.getD 6) ≤ 6) ∧
    (∀ s, cli.logic_mode = some s → (lookupMode LOGIC_MODES s).isSome = true) ∧
    (∀ s, cli.input_mode = some s → (lookupMode INPUT_MODES s).isSome = true) ∧
    (∀ s, cli.output_mode = some s → (lookupMode OUTPUT_MODES s).isSome = true) := by
  unfold send_settings_main at h
  simp only [bind, Except.bind] at h
  repeat' split at h
  all_goals simp_all

/-- C8 witness: a fully explicit valid command line is accepted, so the
    inversion applies to it. -/
theorem settings_ok_implies_valid_witness :
    2 ≤ cliValid.num_mice.getD (cfgEmpty.num_mice.getD 6) ∧
    cliValid.num_mice.getD (cfgEmpty.num_mice.getD 6) ≤ 6 :=
  (settings_ok_implies_valid cliValid cfgEmpty (build_packet 6 0 0 0 1 2 true) rfl).1

/-- C9 counterexample: the claim says both emission loops wait with a timeout
    equal to the time remaining until the deadline start + (n+1)T.  The
    aggregator loop passes the constant 0.02 s to select; at start 0 with no
    frames sent, period 0.02 and current time 0.01 the remaining time is
    0.01, which the constant timeout does not equal. -/
theorem host_wait_const_not_deadline :
    specDeadlineRemaining 0 0 (2 / 100) (1 / 100) = 1 / 100 ∧
    hostSelectTimeout ≠ specDeadlineRemaining 0 0 (2 / 100) (1 / 100) := by
  constructor <;> norm_num [hostSelectTimeout, specDeadlineRemaining]

/-- C9 amended: only the synthetic source is deadline-based: its computed sleep
    equals the remaining time until start + (n+1)T, every later frame is sent
    no earlier than its deadline, and when an iteration finishes before the
    deadline the frame goes out exactly at the deadline, so lateness does not
    accumulate. -/
theorem synth_pacing_deadline :
    (∀ (start T now : ℚ) (n : Nat),
        synthSleepTime start n T now = specDeadlineRemaining start n T now) ∧
    (∀ (start T : ℚ) (delay : Nat → ℚ) (k : Nat),
        synthNextUntil start (k + 1) T ≤ synthSendTime start T delay (k + 1)) ∧
    (∀ (start T : ℚ) (delay : Nat → ℚ) (k : Nat),
        synthSendTime start T delay k + delay (k + 1) ≤ synthNextUntil start (k + 1) T →
        synthSendTime start T delay (k + 1) = synthNextUntil start (k + 1) T) := by
  refine ⟨fun start T now n => rfl, ?_, ?_⟩
  · intro start T delay k
    show synthNextUntil start (k + 1) T ≤
      synthWake start (k + 1) T (synthSendTime start T delay k + delay (k + 1))
    unfold synthWake synthSleepTime
    split <;> linarith
  · intro start T delay k hle
    show synthWake start (k + 1) T (synthSendTime start T delay k + delay (k + 1)) =
      synthNextUntil start (k + 1) T
    unfold synthWake synthSleepTime
    split <;> linarith

/-- C9 witness: with zero processing delays and period 1/50 the second frame
    goes out exactly at its deadline. -/
theorem synth_pacing_deadline_witness :
    synthSendTime 0 (1 / 50) synthZeroDelay 1 = synthNextUntil 0 1 (1 / 50) :=
  synth_pacing_deadline.2.2 0 (1 / 50) synthZeroDelay 0
    (by norm_num [synthSendTime, synthZeroDelay, synthNextUntil])

/-- C10: every synthetic-source frame, in all-slots-random mode and in
    single-slot mode and for any drawn deltas, starts with the sync byte 0xAA,
    has button byte 0 at offset 13 and wheel byte 0 at offset 14, and is
    15 bytes long. -/
theorem synthetic_frames_zero_buttons_wheel :
    (∀ r : Fin 6 → Int × Int,
        (make_packet_random (gen_all r)).getD 0 0 = SYNC ∧
        (make_packet_random (gen_all r)).getD 13 0 = 0 ∧
        (make_packet_random (gen_all r)).getD 14 0 = 0 ∧
        (make_packet_random (gen_all r)).length = PACKET_LEN) ∧
    (∀ (i : Fin 6) (p : Int × Int),
        (make_packet_random (gen_single i p)).getD 0 0 = SYNC ∧
        (make_packet_random (gen_single i p)).getD 13 0 = 0 ∧
        (make_packet_random (gen_single i p)).getD 14 0 = 0 ∧
        (make_packet_random (gen_single i p)).length = PACKET_LEN) :=
  ⟨fun r => ⟨rfl, rfl, rfl, rfl⟩, fun i p => ⟨rfl, rfl, rfl, rfl⟩⟩
